import Mathlib

/-!
Verification of the WebScraper article-ingestion pipeline
(`scraper/articles/utils.py` and `scraper/articles/models.py`).

The Python source is shallowly embedded below:

* parsed HTML documents (BeautifulSoup objects) are the inductive tree
  `HNode`; BeautifulSoup's `find`/`find_all`/`find_next` become pre-order
  searches over the flattened tree, `get_text(strip=True)` becomes
  `getTextStripN`, and `decompose()` of ad containers becomes the pure
  `removeAds`.  A found `Tag` is always truthy in recent BeautifulSoup
  (`Tag.__bool__` returns `True`), so the source's `if tag:` tests on
  `find` results are embedded as `Option.isSome` matches.
* Python values flowing through the article dictionary are `PyVal`
  (`None`, `str`, `Tag`, `datetime`).
* `datetime.strptime(_, '%d.%m.%Y %H:%M:%S')` and
  `strftime('%d.%m.%Y %H:%M:%S')` become `strptimeDMYHMS` and
  `strftimeDMYHMS` on the plain calendar record `PyDateTime`
  (timezone attachment by `timezone.make_aware` carries no information
  used by the claims and is not represented).
* the Django model `Article` (`models.py`) is `Record`; its
  `published_at` column is declared `null=False`, so the embedded store
  rejects an insert without a publication timestamp exactly as the
  database would (`update_or_create` answers with an error).
* external collaborators of `scraper_run` (webdriver construction, the
  `websites.json` file, the DB existence check, `requests.get`, the
  selenium render, and the `dateparser` library) are oracle fields of
  `Env`; each Python call that may raise is an `Except Unit` value.
-/

namespace WebScraper

/-! ## Calendar values (`datetime.datetime`) -/

/-- A naive `datetime.datetime` value: just the six calendar fields. -/
structure PyDateTime where
  year : Nat
  month : Nat
  day : Nat
  hour : Nat
  minute : Nat
  second : Nat
deriving Repr, DecidableEq

/-- Gregorian leap-year test, as used by `datetime`'s calendar validation. -/
def isLeap (y : Nat) : Bool :=
  (y % 4 == 0 && y % 100 != 0) || y % 400 == 0

/-- Number of days of month `m` in year `y`. -/
def daysInMonth (y m : Nat) : Nat :=
  if m == 2 then (if isLeap y then 29 else 28)
  else if m == 4 || m == 6 || m == 9 || m == 11 then 30
  else 31

/-- Numeric value of a decimal digit character. -/
def digitVal (c : Char) : Nat := c.toNat - 48

/-- Read one or two leading decimal digits (strptime's `%d`, `%m`, `%H`,
`%M`, `%S` accept an optionally zero-padded one- or two-digit number). -/
def take2Digits : List Char → Option (Nat × List Char)
  | [] => none
  | c1 :: rest =>
    if c1.isDigit then
      match rest with
      | c2 :: rest2 =>
        if c2.isDigit then some (digitVal c1 * 10 + digitVal c2, rest2)
        else some (digitVal c1, rest)
      | [] => some (digitVal c1, [])
    else none

/-- Read exactly four leading decimal digits (strptime's `%Y`). -/
def take4Digits : List Char → Option (Nat × List Char)
  | c1 :: c2 :: c3 :: c4 :: rest =>
    if c1.isDigit && c2.isDigit && c3.isDigit && c4.isDigit then
      some (((digitVal c1 * 10 + digitVal c2) * 10 + digitVal c3) * 10 + digitVal c4, rest)
    else none
  | _ => none

/-- Consume one expected literal character. -/
def expectChar (c : Char) : List Char → Option (List Char)
  | [] => none
  | x :: rest => if x == c then some rest else none

/-- `datetime.datetime.strptime(s, '%d.%m.%Y %H:%M:%S')`, returning `none`
where Python raises `ValueError` (format mismatch, trailing input, or an
out-of-range calendar field). -/
def strptimeDMYHMS (s : String) : Option PyDateTime := do
  let (d, r) ← take2Digits s.data
  let r ← expectChar '.' r
  let (m, r) ← take2Digits r
  let r ← expectChar '.' r
  let (y, r) ← take4Digits r
  let r ← expectChar ' ' r
  let (hh, r) ← take2Digits r
  let r ← expectChar ':' r
  let (mi, r) ← take2Digits r
  let r ← expectChar ':' r
  let (ss, r) ← take2Digits r
  if r = [] ∧ 1 ≤ y ∧ 1 ≤ m ∧ m ≤ 12 ∧ 1 ≤ d ∧ d ≤ daysInMonth y m ∧
      hh ≤ 23 ∧ mi ≤ 59 ∧ ss ≤ 59 then
    some ⟨y, m, d, hh, mi, ss⟩
  else none

/-- Zero-pad a number to two digits. -/
def pad2 (n : Nat) : String := if n < 10 then "0" ++ toString n else toString n

/-- Zero-pad a number to four digits. -/
def pad4 (n : Nat) : String :=
  if n < 10 then "000" ++ toString n
  else if n < 100 then "00" ++ toString n
  else if n < 1000 then "0" ++ toString n
  else toString n

/-- `strftime('%d.%m.%Y %H:%M:%S')`. -/
def strftimeDMYHMS (d : PyDateTime) : String :=
  pad2 d.day ++ "." ++ pad2 d.month ++ "." ++ pad4 d.year ++ " " ++
    pad2 d.hour ++ ":" ++ pad2 d.minute ++ ":" ++ pad2 d.second

/-- `str(datetime.datetime(...))`, i.e. `YYYY-MM-DD HH:MM:SS`. -/
def pyStrOfDateTime (d : PyDateTime) : String :=
  pad4 d.year ++ "-" ++ pad2 d.month ++ "-" ++ pad2 d.day ++ " " ++
    pad2 d.hour ++ ":" ++ pad2 d.minute ++ ":" ++ pad2 d.second

/-! ## Python string helpers -/

/-- The whitespace characters stripped by Python's `str.strip()`. -/
def isPySpace (c : Char) : Bool :=
  c == ' ' || c == '\t' || c == '\n' || c == '\r' || c == '\x0b' || c == '\x0c'

/-- Python `str.strip()`: drop leading and trailing whitespace. -/
def pyStrip (s : String) : String :=
  String.mk (((s.data.dropWhile isPySpace).reverse.dropWhile isPySpace).reverse)

/-! ## Parsed HTML documents (BeautifulSoup) -/

/-- A parsed HTML node: an element with tag name, the (multi-valued)
`class` attribute, the remaining attributes, and children; or a text node
(a `NavigableString`). -/
inductive HNode where
  | elem (tag : String) (classes : List String) (attrs : List (String × String))
      (children : List HNode)
  | text (s : String)
deriving Repr

mutual

/-- The node together with all its descendants, in document (pre-)order. -/
def nodes : HNode → List HNode
  | .text s => [.text s]
  | .elem t c a ch => .elem t c a ch :: nodesL ch

/-- Pre-order flattening of a forest of sibling subtrees. -/
def nodesL : List HNode → List HNode
  | [] => []
  | h :: hs => nodes h ++ nodesL hs

end

/-- All nodes strictly inside a node, in document order — the search space
of BeautifulSoup's `find`/`find_all` on that node. -/
def descendants : HNode → List HNode
  | .elem _ _ _ ch => nodesL ch
  | .text _ => []

mutual

/-- `get_text(strip=True)`: every descendant string stripped and
concatenated. -/
def getTextStripN : HNode → String
  | .text s => pyStrip s
  | .elem _ _ _ ch => getTextStripL ch

/-- `get_text(strip=True)` over a forest of siblings. -/
def getTextStripL : List HNode → String
  | [] => ""
  | h :: hs => getTextStripN h ++ getTextStripL hs

end

mutual

/-- The `.text` property (`get_text()` without stripping). -/
def getTextRawN : HNode → String
  | .text s => s
  | .elem _ _ _ ch => getTextRawL ch

/-- `.text` over a forest of siblings. -/
def getTextRawL : List HNode → String
  | .nil => ""
  | .cons h hs => getTextRawN h ++ getTextRawL hs

end

mutual

/-- `str(tag)`: serialize a node back to markup. -/
def htmlRenderN : HNode → String
  | .text s => s
  | .elem t _ _ ch => "<" ++ t ++ ">" ++ htmlRenderL ch ++ "</" ++ t ++ ">"

/-- Serialization of a forest of siblings. -/
def htmlRenderL : List HNode → String
  | .nil => ""
  | .cons h hs => htmlRenderN h ++ htmlRenderL hs

end

/-- Does a node carry `ad-container` among its classes and have tag `div`?
This is what `soup.find_all('div', \x7b'class': 'ad-container'\x7d)`
matches in `body_finder`. -/
def isAdDiv : HNode → Bool
  | .elem t cs _ _ => t == "div" && cs.contains "ad-container"
  | .text _ => false

mutual

/-- Effect of `body_finder`'s cleanup loop: every `div.ad-container`
descendant is `decompose()`d out of the tree (the node itself is kept —
the loop is run on the document object, which is not a div). -/
def removeAds : HNode → HNode
  | .text s => .text s
  | .elem t c a ch => .elem t c a (removeAdsL ch)

/-- Ad removal over a forest of siblings. -/
def removeAdsL : List HNode → List HNode
  | .nil => .nil
  | .cons h hs => if isAdDiv h then removeAdsL hs else .cons (removeAds h) (removeAdsL hs)

end

mutual

/-- Structural equality of nodes (used for locating a node's document
position; distinct bs4 node identities with equal content also have equal
search behaviour, so value equality is adequate). -/
def beqN : HNode → HNode → Bool
  | .text a, .text b => a == b
  | .elem t1 c1 a1 ch1, .elem t2 c2 a2 ch2 =>
      t1 == t2 && c1 == c2 && a1 == a2 && beqL ch1 ch2
  | _, _ => false

/-- Structural equality of sibling forests. -/
def beqL : List HNode → List HNode → Bool
  | .nil, .nil => true
  | .cons x xs, .cons y ys => beqN x y && beqL xs ys
  | _, _ => false

end

instance : BEq HNode := ⟨beqN⟩

/-- Attribute read, `tag.get(name)` / `tag[name]` for non-`class`
attributes. -/
def getAttr (n : HNode) (key : String) : Option String :=
  match n with
  | .elem _ _ attrs _ => attrs.lookup key
  | .text _ => none

/-- Element match by tag name only, e.g. `find('h1')`. -/
def matchTag (name : String) : HNode → Bool
  | .elem t _ _ _ => t == name
  | .text _ => false

/-- Element match by tag name and a required class, e.g.
`find('div', \x7b'class': 'table-post'\x7d)`; bs4 matches when the wanted
class is one of the element's classes. -/
def matchTagClass (name cls : String) : HNode → Bool
  | .elem t cs _ _ => t == name && cs.contains cls
  | .text _ => false

/-- Element match by tag name and an exact attribute value, e.g.
`find('meta', property='og:title')`. -/
def matchTagAttr (name key val : String) : HNode → Bool
  | .elem t _ attrs _ => t == name && attrs.lookup key == some val
  | .text _ => false

/-- Element match by tag name and an attribute value matching an anchored
regular expression `^prefix`, e.g. `find('a', href=re.compile('^/autorzy/'))`. -/
def matchTagAttrStart (name key pre : String) : HNode → Bool
  | .elem t _ attrs _ =>
      t == name &&
      (match attrs.lookup key with
       | some v => pre.data.isPrefixOf v.data
       | none => false)
  | .text _ => false

/-- `soup.find(name)`: first descendant matching, in document order. -/
def findTag (root : HNode) (name : String) : Option HNode :=
  (descendants root).find? (matchTag name)

/-- `soup.find(name, \x7b'class': cls\x7d)`. -/
def findTagClass (root : HNode) (name cls : String) : Option HNode :=
  (descendants root).find? (matchTagClass name cls)

/-- `soup.find(name, key=val)`. -/
def findTagAttr (root : HNode) (name key val : String) : Option HNode :=
  (descendants root).find? (matchTagAttr name key val)

/-- `soup.find(name, key=re.compile('^pre'))`. -/
def findTagAttrStart (root : HNode) (name key pre : String) : Option HNode :=
  (descendants root).find? (matchTagAttrStart name key pre)

/-- `soup.find_all(name)`. -/
def findAllTag (root : HNode) (name : String) : List HNode :=
  (descendants root).filter (matchTag name)

/-- `anchor.find_next(name)`: the first element with tag `name` strictly
after `anchor` in the document order of `root`. -/
def findNextTag (root anchor : HNode) (name : String) : Option HNode :=
  (((nodes root).dropWhile (fun x => !(x == anchor))).drop 1).find? (matchTag name)

/-! ## Python values and the text normalizer -/

/-- A Python value as it occurs in the article dictionary: `None`, a
string, a bs4 tag, or a `datetime`. -/
inductive PyVal where
  | noneV
  | strV (s : String)
  | tagV (t : HNode)
  | dtV (d : PyDateTime)

/-- An empty string becomes `None` (the `text or None` idiom). -/
def strOrNone (s : String) : Option String :=
  if s = "" then none else some s

/-- `_normalize_text` (utils.py lines 9-21): `None` stays absent; a value
with a `get_text` capability is read with `strip=True`; anything else goes
through `str(...).strip()`; an empty result becomes `None`. -/
def _normalize_text : PyVal → Option String
  | .noneV => none
  | .tagV t => strOrNone (getTextStripN t)
  | .strV s => strOrNone (pyStrip s)
  | .dtV d => strOrNone (pyStrip (pyStrOfDateTime d))

/-! ## Extractors -/

/-- The final branch of `title_finder`: the `<title>` element, normalized. -/
def titleTagBranch (doc : HNode) : Option String :=
  match findTag doc "title" with
  | some t => _normalize_text (.tagV t)
  | none => none

/-- `title_finder` (utils.py lines 24-45): first `<h1>` (normalized), else
`meta[property="og:title"]` with a non-empty `content` attribute (raw
attribute, trimmed), else `<title>` (normalized), else `None`. -/
def title_finder (soup : Option HNode) : Option String :=
  match soup with
  | none => none
  | some doc =>
    match findTag doc "h1" with
    | some h1 => _normalize_text (.tagV h1)
    | none =>
      match findTagAttr doc "meta" "property" "og:title" with
      | some og =>
        match getAttr og "content" with
        | some c => if c ≠ "" then some (pyStrip c) else titleTagBranch doc
        | none => titleTagBranch doc
      | none => titleTagBranch doc

/-- The selector list of `body_finder`: tag name plus optional required
class. -/
def bodySelectors : List (String × Option String) :=
  [("div", some "table-post"), ("article", none),
   ("div", some "article-body"), ("div", some "post-content")]

/-- One selector probe of `body_finder`'s loop. -/
def findSelector (doc : HNode) : String × Option String → Option HNode
  | (name, some cls) => findTagClass doc name cls
  | (name, none) => findTag doc name

/-- The selector loop of `body_finder`: first selector with a match wins. -/
def firstSelectorMatch (doc : HNode) : List (String × Option String) → Option HNode
  | [] => none
  | s :: rest =>
    match findSelector doc s with
    | some t => some t
    | none => firstSelectorMatch doc rest

/-- The largest-div fallback of `body_finder`: Python's `max(divs, key=...)`
keeps the first maximum under a strictly-greater comparison. -/
def largestDiv (d : HNode) (ds : List HNode) : HNode :=
  ds.foldl
    (fun best x =>
      if (getTextStripN x).length > (getTextStripN best).length then x else best)
    d

/-- `body_finder` (utils.py lines 48-80): decompose every
`div.ad-container`, then try the fixed selectors in order, then fall back
to the largest `<div>` by stripped text length if that length exceeds 100. -/
def body_finder (soup : Option HNode) : Option HNode :=
  match soup with
  | none => none
  | some doc0 =>
    let doc := removeAds doc0
    match firstSelectorMatch doc bodySelectors with
    | some t => some t
    | none =>
      match findAllTag doc "div" with
      | [] => none
      | d :: ds =>
        let best := largestDiv d ds
        if (getTextStripN best).length > 100 then some best else none

/-- The `dateparser` collaborator: whether the library imports, and what
`dateparser.parse(raw, languages=['pl'])` answers (its `None` answer is
`none`). -/
structure DateEnv where
  available : Bool
  parse : String → Option PyDateTime

/-- The `<time>` strategy of `published_at_finder` (utils.py lines 97-103):
the `datetime` attribute, or the element's stripped text when the
attribute is absent or empty; a non-empty raw value is parsed and
formatted. -/
def timeStrategy (env : DateEnv) (doc : HNode) : Option String :=
  match findTag doc "time" with
  | none => none
  | some timeTag =>
    let raw :=
      match getAttr timeTag "datetime" with
      | some dv => if dv ≠ "" then dv else getTextStripN timeTag
      | none => getTextStripN timeTag
    if raw ≠ "" then
      match env.parse raw with
      | some p => some (strftimeDMYHMS p)
      | none => none
    else none

/-- The author-link strategy of `published_at_finder` (utils.py lines
105-115): an `<a href="/autorzy/...">` anchor, the `.text` of the next
`<p>` in document order, parsed as a date; the `AttributeError` raised
when no next `<p>` exists is swallowed by the surrounding `except`. -/
def authorStrategy (env : DateEnv) (doc : HNode) : Option String :=
  match findTagAttrStart doc "a" "href" "/autorzy/" with
  | none => none
  | some anchor =>
    match findNextTag doc anchor "p" with
    | none => none
    | some p =>
      let possible := getTextRawN p
      if possible ≠ "" then
        match env.parse possible with
        | some d => some (strftimeDMYHMS d)
        | none => none
      else none

/-- `published_at_finder` (utils.py lines 83-118): absent document or
unavailable `dateparser` gives `None`; otherwise the `<time>` strategy,
then the author-link strategy, then `None`. -/
def published_at_finder (env : DateEnv) (soup : Option HNode) : Option String :=
  match soup with
  | none => none
  | some doc =>
    if env.available then
      match timeStrategy env doc with
      | some r => some r
      | none => authorStrategy env doc
    else none

/-! ## The record store (`models.Article` and `save_article`) -/

/-- A persisted `Article` row (models.py).  `published_at` is declared
`null=False` there, so a persisted row always carries a value. -/
structure Record where
  title : String
  body : String
  plain_body : String
  published_at : PyDateTime
  url : String
deriving Repr, DecidableEq

/-- The field values `save_article` puts into the `defaults` dictionary;
`published_at` is added to the dictionary only when parsing succeeded. -/
structure Defaults where
  title : String
  body : String
  plain_body : String
  published_at : Option PyDateTime
deriving Repr, DecidableEq

/-- `Article.objects.update_or_create(url=url, defaults=defaults)`: update
the row with the given unique `url` in place, or insert a new one.  An
insert without a `published_at` value violates the `null=False` column
constraint of models.py and raises (`.error`), exactly as the database
does. -/
def update_or_create (store : List Record) (url : String) (d : Defaults) :
    Except Unit (Record × Bool × List Record) :=
  match store.find? (fun r => r.url == url) with
  | some r =>
    let r' : Record :=
      { title := d.title, body := d.body, plain_body := d.plain_body,
        published_at := d.published_at.getD r.published_at, url := r.url }
    .ok (r', false, store.map (fun x => if x.url == url then r' else x))
  | none =>
    match d.published_at with
    | some p =>
      let r : Record :=
        { title := d.title, body := d.body, plain_body := d.plain_body,
          published_at := p, url := url }
      .ok (r, true, store ++ [r])
    | none => .error ()

/-- The article dictionary built by `scraper_run` and consumed by
`save_article`.  The `url` key always holds a string or is missing, hence
`Option String`; the other keys carry arbitrary Python values. -/
structure ArticleDict where
  title : PyVal
  body : PyVal
  plain_body : PyVal
  published_at : PyVal
  url : Option String

/-- The normalization part of `save_article` (utils.py lines 143-170):
sentinel substitution for title/body/plain body and the guarded
`strptime` of `published_at` whose parse failure leaves the value absent. -/
def save_defaults (a : ArticleDict) : Defaults :=
  let title := (_normalize_text a.title).getD "Not Found"
  let bodyPair :=
    match a.body with
    | .tagV t =>
      (htmlRenderN t, (_normalize_text (.strV (getTextStripN t))).getD "Not Found")
    | bv =>
      let bh := (_normalize_text bv).getD "Not Found"
      (bh, (_normalize_text a.plain_body).getD
        (if bh ≠ "Not Found" then bh else "Not Found"))
  let published_at : Option PyDateTime :=
    match a.published_at with
    | .noneV => none
    | .strV s => if s = "" then none else strptimeDMYHMS s
    | .dtV d => some d
    | .tagV _ => none
  { title := title, body := bodyPair.1, plain_body := bodyPair.2,
    published_at := published_at }

/-- `save_article` (utils.py lines 136-183).  `uuid` stands for the
`uuid.uuid4()` fragment used when the dictionary has no url. -/
def save_article (uuid : String) (store : List Record) (a : ArticleDict) :
    Except Unit (Record × Bool × List Record) :=
  let d := save_defaults a
  let url :=
    match a.url with
    | some s => if s = "" then "not-found-" ++ uuid else s
    | none => "not-found-" ++ uuid
  update_or_create store url d

/-! ## The run loop (`scraper_run`) -/

/-- One entry of a decoded `websites.json` array, which may fail to be a
string (`json.load` returns arbitrary JSON values). -/
inductive LinkItem where
  | strI (s : String)
  | otherI

/-- The value `json.load` decodes `websites.json` into, as consumed by
`list(links)` at utils.py line 217: a JSON array yields its entries; a
JSON object or string is also iterable (iteration yields its keys,
respectively its one-character substrings — strings either way); a JSON
number, boolean or null makes `list(...)` raise a `TypeError` that no
handler catches. -/
inductive WebsitesDoc where
  | listD (items : List LinkItem)
  | iterStrD (items : List String)
  | scalarD

/-- The collaborators of one `scraper_run` invocation.  Each `Except Unit`
value records whether the corresponding Python call raised. -/
structure Env where
  /-- outcome of `webdriver_builder()` -/
  driver : Except Unit Unit
  /-- outcome of `open(websites_path)` plus `json.load` -/
  websites : Except Unit WebsitesDoc
  /-- whether `Article.objects.filter(url=link).exists()` raises for a url -/
  dbCheckFails : String → Bool
  /-- outcome of `requests.get(link, ...)`: a status code, or a
  `RequestException` -/
  probe : String → Except Unit Nat
  /-- outcome of `driver.get` / `page_source` / `BeautifulSoup`: the parsed
  document, or a raised exception -/
  render : String → Except Unit HNode
  /-- the `dateparser` collaborator -/
  dates : DateEnv
  /-- the `uuid.uuid4()` fragment available to `save_article` -/
  uuid : String

/-- Observable state threaded through the loop: the record store, the
`skipped_cnt` variable, and the urls for which the probe, the render, and
a successful persist actually happened. -/
structure RunState where
  store : List Record
  skipped : Nat
  probed : List String
  rendered : List String
  persisted : List String
deriving Repr, DecidableEq

/-- `bad_statuses` (utils.py line 216). -/
def bad_statuses : List Nat := [404, 500, 408, 403]

/-- The trailing-slash normalization (utils.py lines 218-223):
`link.removesuffix('/')` when `link.endswith('/')` — drop exactly one
final separator. -/
def stripTrailingSlash (s : String) : String :=
  if s.data.getLast? = some '/' then String.mk s.data.dropLast else s

/-- The characters `urllib.parse` admits inside a url scheme. -/
def isSchemeChar (c : Char) : Bool :=
  c.isAlpha || c.isDigit || c == '+' || c == '-' || c == '.'

/-- Is the first character a letter? -/
def headIsAlpha : List Char → Bool
  | [] => false
  | c :: _ => c.isAlpha

/-- The scheme split of `urllib.parse.urlsplit`: a colon at a positive
index whose prefix is a letter followed by scheme characters yields that
prefix, lowercased, as the scheme; otherwise the scheme is empty and
nothing is consumed. -/
def splitScheme (cs : List Char) : List Char × List Char :=
  let pre := cs.takeWhile (fun c => c != ':')
  if pre.length < cs.length && headIsAlpha pre && pre.all isSchemeChar then
    (pre.map Char.toLower, cs.drop (pre.length + 1))
  else ([], cs)

/-- The `urlparse` call and validation of utils.py lines 232-233 —
modelled from `urllib.parse.urlsplit` for ASCII urls as the Pythons the
source supports handle them (the branch at utils.py line 220 includes
pre-3.9 interpreters): after the scheme split, a remainder starting with
`//` has a network location running to the next `/`, `?` or `#`; a netloc
holding a `[` without `]` or a `]` without `[` makes urlsplit raise
`ValueError("Invalid IPv6 URL")` — an `.error` here, which the
`except RequestException` handler at utils.py line 239 does not catch.
Otherwise the answer is the validation result of line 233: the scheme is
`http` or `https` and the netloc is non-empty.  (CPython 3.11+ also
validates the contents of balanced brackets; that newer, version-specific
check is outside this model.) -/
def urlparse_validate (s : String) : Except Unit Bool :=
  let (scheme, rest) := splitScheme s.data
  if rest.take 2 == ['/', '/'] then
    let netloc := (rest.drop 2).takeWhile (fun c => c != '/' && c != '?' && c != '#')
    if (netloc.contains '[' && !netloc.contains ']') ||
        (netloc.contains ']' && !netloc.contains '[') then .error ()
    else .ok ((scheme == "http".data || scheme == "https".data) && !netloc.isEmpty)
  else .ok false

/-- The article dictionary construction of utils.py lines 255-265: the title
is extracted from the pristine document, `body_finder` decomposes the ad
containers as a side effect, and `published_at_finder` therefore runs on
the ad-stripped document; `plain_body` is the body tag's stripped text
when a body was found, else `_normalize_text(None)`. -/
def extract_article (env : Env) (soup : HNode) (link : String) : ArticleDict :=
  let t := title_finder (some soup)
  let b := body_finder (some soup)
  let p := published_at_finder env.dates (some (removeAds soup))
  { title := match t with | some s => .strV s | none => .noneV,
    body := match b with | some bt => .tagV bt | none => .noneV,
    plain_body := match b with | some bt => .strV (getTextStripN bt) | none => .noneV,
    published_at := match p with | some s => .strV s | none => .noneV,
    url := some link }

/-- The per-url pipeline after the dedup check (utils.py lines 231-270):
`urlparse` (whose `ValueError` the `except RequestException` handler does
not catch — it propagates and aborts the run, hence the `.error`),
syntactic validation, probe, bad-status filter, render, extraction and
persist.  Every `skipped_cnt =+ 1` of the source *assigns* `+1` — it does
not accumulate. -/
def process_after_dedup (env : Env) (st : RunState) (link : String) :
    Except Unit RunState :=
  match urlparse_validate link with
  | .error _ => .error ()
  | .ok valid =>
    if !valid then .ok { st with skipped := 1 }
    else
      let st := { st with probed := st.probed ++ [link] }
      match env.probe link with
      | .error _ => .ok { st with skipped := 1 }
      | .ok status =>
        if status ∈ bad_statuses then .ok { st with skipped := 1 }
        else
          let st := { st with rendered := st.rendered ++ [link] }
          match env.render link with
          | .error _ => .ok st
          | .ok soup =>
            match save_article env.uuid st.store (extract_article env soup link) with
            | .error _ => .ok st
            | .ok (_, _, store') =>
              .ok { st with store := store', persisted := st.persisted ++ [link] }

/-- One iteration of the loop body (utils.py lines 217-270).  A non-string
entry makes `link.endswith('/')` raise an `AttributeError` that no handler
catches, aborting the whole run (`.error`).  A raising DB existence check
is swallowed and the url proceeds through the pipeline. -/
def process_link (env : Env) (st : RunState) (item : LinkItem) :
    Except Unit RunState :=
  match item with
  | .strI link0 =>
    let link := stripTrailingSlash link0
    if env.dbCheckFails link then process_after_dedup env st link
    else if st.store.any (fun r => r.url == link) then .ok { st with skipped := 1 }
    else process_after_dedup env st link
  | .otherI => .error ()

/-- The `for` loop of `scraper_run`, stopping the run at the first
uncaught exception. -/
def run_loop (env : Env) : List LinkItem → RunState → Except Unit RunState
  | [], st => .ok st
  | item :: rest, st =>
    match process_link env st item with
    | .error e => .error e
    | .ok st' => run_loop env rest st'

/-- `scraper_run` (utils.py lines 186-276) over an initial record store:
webdriver acquisition, the loading of `websites.json` and the
`list(links)` conversion happen inside the outer `try`, which has no
`except` — a failure of any of them aborts the run (the `finally` only
releases the driver).  A decoded object or string iterates as a list of
strings. -/
def scraper_run (env : Env) (initStore : List Record) : Except Unit RunState :=
  match env.driver with
  | .error _ => .error ()
  | .ok _ =>
    match env.websites with
    | .error _ => .error ()
    | .ok .scalarD => .error ()
    | .ok (.listD items) => run_loop env items ⟨initStore, 0, [], [], []⟩
    | .ok (.iterStrD ss) =>
      run_loop env (ss.map LinkItem.strI) ⟨initStore, 0, [], [], []⟩

/-! ## Auxiliary predicates used by the theorems -/

/-- Did a modelled Python call raise? -/
def isRunError {α : Type} : Except Unit α → Bool
  | .error _ => true
  | .ok _ => false

/-- Is a node a bs4 `Tag` proper (an element), as opposed to a
`NavigableString`? -/
def isElemNode : HNode → Bool
  | .elem _ _ _ _ => true
  | .text _ => false

/-- A url ends in (at least) two path separators. -/
def endsInDoubleSlash (s : String) : Bool :=
  s.data.getLast? == some '/' && s.data.dropLast.getLast? == some '/'

/-! ## Concrete scenario inputs -/

/-- A document containing only a `<title>Foo</title>`. -/
def docTitleOnly : HNode :=
  .elem "html" [] [] [.elem "head" [] [] [.elem "title" [] [] [.text "Foo"]]]

/-- A document containing both `<h1>A</h1>` and `<title>B</title>`. -/
def docH1AndTitle : HNode :=
  .elem "html" [] [] [.elem "h1" [] [] [.text "A"], .elem "title" [] [] [.text "B"]]

/-- A document whose `<h1>` holds only whitespace next to a
`<title>B</title>`. -/
def docWsH1AndTitle : HNode :=
  .elem "html" [] [] [.elem "h1" [] [] [.text "  "], .elem "title" [] [] [.text "B"]]

/-- A document with only an `og:title` meta carrying padded content. -/
def docOgOnly : HNode :=
  .elem "html" [] [] [
    .elem "meta" [] [("property", "og:title"), ("content", " OG ")] []]

/-- A text of 150 characters. -/
def text150 : String := String.mk (List.replicate 150 'x')

/-- A text of 50 characters. -/
def text50 : String := String.mk (List.replicate 50 'x')

/-- The whitespace-only `<h1>` used in the C7 counterexample. -/
def wsH1 : HNode := .elem "h1" [] [] [.text "  "]

/-- The `<article>` node of `docAdArticle`. -/
def articleNode : HNode := .elem "article" [] [] [.text text150]

/-- A document with an ad container followed by an `<article>` with long
text. -/
def docAdArticle : HNode :=
  .elem "html" [] [] [.elem "div" ["ad-container"] [] [.text "BUY NOW"], articleNode]

/-- Five `<div>`s, none matching a selector, the longest holding 50
characters. -/
def docFallbackShort : HNode :=
  .elem "html" [] [] [
    .elem "div" [] [] [.text text50],
    .elem "div" [] [] [.text "a"], .elem "div" [] [] [.text "b"],
    .elem "div" [] [] [.text "c"], .elem "div" [] [] [.text "d"]]

/-- The 150-character `<div>` of `docFallbackLong`. -/
def longDiv : HNode := .elem "div" [] [] [.text text150]

/-- Two unmatched `<div>`s, the longest holding 150 characters. -/
def docFallbackLong : HNode :=
  .elem "html" [] [] [.elem "div" [] [] [.text "small"], longDiv]

/-- A document containing a `<time datetime="2024-03-01T10:00:00">`
element. -/
def docTime : HNode :=
  .elem "html" [] [] [.elem "time" [] [("datetime", "2024-03-01T10:00:00")] []]

/-- A `dateparser` oracle behaving as `dateparser.parse(_, languages=['pl'])`
does on the one ISO timestamp the scenarios use. -/
def dateparserIso : DateEnv :=
  ⟨true, fun s => if s = "2024-03-01T10:00:00" then some ⟨2024, 3, 1, 10, 0, 0⟩ else none⟩

/-- A rendered page with a title, an `<article>` body and a parseable
`<time>` stamp. -/
def pageDoc : HNode :=
  .elem "html" [] [] [
    .elem "h1" [] [] [.text "T"],
    .elem "article" [] [] [.text "body text"],
    .elem "time" [] [("datetime", "2024-03-01T10:00:00")] []]

/-- The record that persisting `pageDoc` under a url produces. -/
def pageRecord (url : String) : Record :=
  ⟨"T", "<article>body text</article>", "body text", ⟨2024, 3, 1, 10, 0, 0⟩, url⟩

/-- An article dictionary with absent title, body, plain body and
publication date. -/
def emptyDict : ArticleDict :=
  { title := .noneV, body := .noneV, plain_body := .noneV,
    published_at := .noneV, url := some "https://example.com/x" }

/-- A previously persisted record under `https://example.com/x`. -/
def oldRec : Record :=
  ⟨"old", "oldbody", "oldplain", ⟨2020, 1, 1, 0, 0, 0⟩, "https://example.com/x"⟩

/-- A run whose page renders with nothing extractable: the persist step
has no publication timestamp to store. -/
def c1Env : Env :=
  { driver := .ok (), websites := .ok (.listD [.strI "https://example.com/x"]),
    dbCheckFails := fun _ => false, probe := fun _ => .ok 200,
    render := fun _ => .ok (.elem "html" [] [] []),
    dates := ⟨false, fun _ => none⟩, uuid := "u0" }

/-- A run whose webdriver never comes up. -/
def c2DeadDriverEnv : Env :=
  { driver := .error (), websites := .ok (.listD []),
    dbCheckFails := fun _ => false, probe := fun _ => .ok 200,
    render := fun _ => .error (), dates := ⟨false, fun _ => none⟩, uuid := "u0" }

/-- A run whose webdriver comes up fine but whose `websites.json` fails to
load. -/
def c2FailEnv : Env :=
  { driver := .ok (), websites := .error (),
    dbCheckFails := fun _ => false, probe := fun _ => .ok 200,
    render := fun _ => .error (), dates := ⟨false, fun _ => none⟩, uuid := "u0" }

/-- A run whose `websites.json` decodes to a JSON number, boolean or
null. -/
def c2ScalarEnv : Env :=
  { driver := .ok (), websites := .ok .scalarD,
    dbCheckFails := fun _ => false, probe := fun _ => .ok 200,
    render := fun _ => .error (), dates := ⟨false, fun _ => none⟩, uuid := "u0" }

/-- A run over the single string url `http://[`, on which `urlparse`
raises `ValueError("Invalid IPv6 URL")`. -/
def c2BadUrlEnv : Env :=
  { driver := .ok (), websites := .ok (.listD [.strI "http://["]),
    dbCheckFails := fun _ => false, probe := fun _ => .ok 200,
    render := fun _ => .ok pageDoc, dates := dateparserIso, uuid := "u0" }

/-- A run over two urls that both probe as HTTP 404. -/
def c3Env : Env :=
  { driver := .ok (),
    websites := .ok (.listD [.strI "http://a.example/x", .strI "http://b.example/y"]),
    dbCheckFails := fun _ => false, probe := fun _ => .ok 404,
    render := fun _ => .ok (.elem "html" [] [] []),
    dates := ⟨false, fun _ => none⟩, uuid := "u0" }

/-- A run over the duplicate-after-normalization input list of the C5
scenario. -/
def c5Env : Env :=
  { driver := .ok (),
    websites := .ok (.listD [.strI "https://example.com/a/", .strI "https://example.com/a"]),
    dbCheckFails := fun _ => false, probe := fun _ => .ok 200,
    render := fun _ => .ok pageDoc, dates := dateparserIso, uuid := "u0" }

/-- A run over one already-persisted url whose DB existence check raises. -/
def c10Env : Env :=
  { driver := .ok (), websites := .ok (.listD [.strI "https://example.com/x"]),
    dbCheckFails := fun _ => true, probe := fun _ => .ok 200,
    render := fun _ => .ok pageDoc, dates := dateparserIso, uuid := "u0" }

/-! ## Helper lemmas -/

mutual

/-- No node of the cleaned subtree of a non-ad node is an ad container. -/
theorem noAd_nodes_removeAds (t : HNode) (x : HNode)
    (hx : x ∈ nodes (removeAds t)) (ht : isAdDiv t = false) : isAdDiv x = false := by
  cases t with
  | text s =>
    simp only [removeAds, nodes, List.mem_singleton] at hx
    subst hx
    exact ht
  | elem tag cs attrs ch =>
    simp only [removeAds, nodes, List.mem_cons] at hx
    rcases hx with rfl | hx
    · simpa [isAdDiv] using ht
    · exact noAd_nodesL_removeAdsL ch x hx

/-- No node of a cleaned sibling forest is an ad container. -/
theorem noAd_nodesL_removeAdsL (l : List HNode) (x : HNode)
    (hx : x ∈ nodesL (removeAdsL l)) : isAdDiv x = false := by
  match l with
  | [] => simp [removeAdsL, nodesL] at hx
  | h :: hs =>
    rw [removeAdsL] at hx
    by_cases hAd : isAdDiv h
    · rw [if_pos hAd] at hx
      exact noAd_nodesL_removeAdsL hs x hx
    · rw [if_neg hAd] at hx
      rw [nodesL] at hx
      rcases List.mem_append.mp hx with h1 | h2
      · exact noAd_nodes_removeAds h x h1 (by simpa using hAd)
      · exact noAd_nodesL_removeAdsL hs x h2

end

mutual

/-- Nodes of a node of a tree are nodes of the tree. -/
theorem nodes_trans (t x y : HNode) (hx : x ∈ nodes t) (hy : y ∈ nodes x) :
    y ∈ nodes t := by
  cases t with
  | text s =>
    simp only [nodes, List.mem_singleton] at hx
    subst hx
    exact hy
  | elem tag cs attrs ch =>
    simp only [nodes, List.mem_cons] at hx ⊢
    rcases hx with rfl | hx
    · simpa only [nodes, List.mem_cons] using hy
    · exact Or.inr (nodesL_trans ch x y hx hy)

/-- Nodes of a node of a forest are nodes of the forest. -/
theorem nodesL_trans (l : List HNode) (x y : HNode) (hx : x ∈ nodesL l)
    (hy : y ∈ nodes x) : y ∈ nodesL l := by
  match l with
  | [] => simp [nodesL] at hx
  | h :: hs =>
    rw [nodesL] at hx ⊢
    rcases List.mem_append.mp hx with h1 | h2
    · exact List.mem_append.mpr (Or.inl (nodes_trans h x y h1 hy))
    · exact List.mem_append.mpr (Or.inr (nodesL_trans hs x y h2 hy))

end

/-- The selector loop only answers with descendants of the searched
document. -/
theorem firstSelectorMatch_mem (doc : HNode) (sels : List (String × Option String))
    (t : HNode) (h : firstSelectorMatch doc sels = some t) : t ∈ descendants doc := by
  induction sels with
  | nil => simp [firstSelectorMatch] at h
  | cons s rest ih =>
    rw [firstSelectorMatch] at h
    cases hs : findSelector doc s with
    | some u =>
      rw [hs] at h
      cases h
      obtain ⟨name, cls⟩ := s
      cases cls with
      | some c => exact List.mem_of_find?_eq_some hs
      | none => exact List.mem_of_find?_eq_some hs
    | none =>
      rw [hs] at h
      exact ih h

/-- Python's first-maximum `max` answers with an element of its input. -/
theorem largestDiv_mem (ds : List HNode) (d : HNode) : largestDiv d ds ∈ d :: ds := by
  induction ds generalizing d with
  | nil => simp [largestDiv]
  | cons x xs ih =>
    have step :
        largestDiv d (x :: xs) =
          largestDiv (if (getTextStripN x).length > (getTextStripN d).length then x else d) xs := by
      simp [largestDiv]
    rw [step]
    by_cases hc : (getTextStripN x).length > (getTextStripN d).length
    · rw [if_pos hc]
      have := ih x
      simp only [List.mem_cons] at this ⊢
      tauto
    · rw [if_neg hc]
      have := ih d
      simp only [List.mem_cons] at this ⊢
      tauto

/-- Whatever `body_finder` answers lives inside the cleaned document. -/
theorem bodyResult_mem (doc b : HNode) (h : body_finder (some doc) = some b) :
    b ∈ descendants (removeAds doc) := by
  rw [body_finder] at h
  cases hm : firstSelectorMatch (removeAds doc) bodySelectors with
  | some t =>
    rw [hm] at h
    cases h
    exact firstSelectorMatch_mem _ _ _ hm
  | none =>
    rw [hm] at h
    cases hall : findAllTag (removeAds doc) "div" with
    | nil =>
      rw [hall] at h
      dsimp only at h
      exact Option.noConfusion h
    | cons d ds =>
      rw [hall] at h
      dsimp only at h
      by_cases hlen : (getTextStripN (largestDiv d ds)).length > 100
      · rw [if_pos hlen] at h
        cases h
        have hmem := largestDiv_mem ds d
        rw [← hall] at hmem
        exact List.mem_of_mem_filter hmem
      · rw [if_neg hlen] at h
        exact Option.noConfusion h

/-- An `Except Unit` value is an error exactly when it is the error. -/
theorem isRunError_eq_true_iff {α : Type} (x : Except Unit α) :
    isRunError x = true ↔ x = .error () := by
  cases x with
  | error e => cases e; simp [isRunError]
  | ok a => simp [isRunError]

/-- The post-dedup pipeline raises exactly when `urlparse` raises on the
url: validation, probe, render, extraction and persist failures are all
caught inside it. -/
theorem process_after_dedup_isRunError (env : Env) (st : RunState) (l : String) :
    isRunError (process_after_dedup env st l) = isRunError (urlparse_validate l) := by
  rw [process_after_dedup]
  cases hu : urlparse_validate l with
  | error e => rfl
  | ok valid =>
    dsimp only
    split
    · rfl
    · split
      · rfl
      · split
        · rfl
        · split
          · rfl
          · split
            · rfl
            · rfl

/-- When `urlparse` does not raise on a url, the post-dedup pipeline
always completes the iteration. -/
theorem process_after_dedup_ok (env : Env) (st : RunState) (l : String)
    (h : isRunError (urlparse_validate l) = false) :
    ∃ st', process_after_dedup env st l = .ok st' := by
  have h2 := process_after_dedup_isRunError env st l
  rw [h] at h2
  cases hpd : process_after_dedup env st l with
  | error e =>
    rw [hpd] at h2
    exact absurd h2 (by simp [isRunError])
  | ok st' => exact ⟨st', rfl⟩

/-- The post-dedup pipeline aborts the iteration exactly when `urlparse`
raises on the url. -/
theorem process_after_dedup_err_iff (env : Env) (st : RunState) (l : String) :
    process_after_dedup env st l = .error () ↔ urlparse_validate l = .error () := by
  rw [← isRunError_eq_true_iff, ← isRunError_eq_true_iff,
    process_after_dedup_isRunError]

/-- A loop over string entries on whose normalized forms `urlparse` does
not raise never aborts. -/
theorem run_loop_ok_of_parsable (env : Env) (links : List LinkItem) (st : RunState)
    (hall : ∀ it ∈ links, ∃ l, it = LinkItem.strI l ∧
      isRunError (urlparse_validate (stripTrailingSlash l)) = false) :
    isRunError (run_loop env links st) = false := by
  revert hall
  induction links generalizing st with
  | nil =>
    intro hall
    rfl
  | cons it rest ih =>
    intro hall
    obtain ⟨l, rfl, hok⟩ := hall it (List.mem_cons_self it rest)
    have hrest : ∀ it' ∈ rest, ∃ l', it' = LinkItem.strI l' ∧
        isRunError (urlparse_validate (stripTrailingSlash l')) = false :=
      fun it' h' => hall it' (List.mem_cons_of_mem _ h')
    by_cases hdb : env.dbCheckFails (stripTrailingSlash l)
    · have hPL : process_link env st (.strI l) =
          process_after_dedup env st (stripTrailingSlash l) := by
        rw [process_link, if_pos hdb]
      obtain ⟨st', hpd⟩ := process_after_dedup_ok env st _ hok
      rw [run_loop, hPL, hpd]
      exact ih st' hrest
    · by_cases hex : st.store.any (fun r => r.url == stripTrailingSlash l) = true
      · have hPL : process_link env st (.strI l) = .ok { st with skipped := 1 } := by
          rw [process_link, if_neg hdb, if_pos hex]
        rw [run_loop, hPL]
        exact ih _ hrest
      · have hPL : process_link env st (.strI l) =
            process_after_dedup env st (stripTrailingSlash l) := by
          rw [process_link, if_neg hdb, if_neg hex]
        obtain ⟨st', hpd⟩ := process_after_dedup_ok env st _ hok
        rw [run_loop, hPL, hpd]
        exact ih st' hrest

/-- The normalizer never answers with the empty string. -/
theorem _normalize_text_ne_empty (v : PyVal) (s : String)
    (h : _normalize_text v = some s) : s ≠ "" := by
  cases v with
  | noneV => simp [_normalize_text] at h
  | strV t =>
    rw [_normalize_text, strOrNone] at h
    by_cases he : pyStrip t = ""
    · rw [if_pos he] at h; cases h
    · rw [if_neg he] at h; cases h; exact he
  | tagV t =>
    rw [_normalize_text, strOrNone] at h
    by_cases he : getTextStripN t = ""
    · rw [if_pos he] at h; cases h
    · rw [if_neg he] at h; cases h; exact he
  | dtV d =>
    rw [_normalize_text, strOrNone] at h
    by_cases he : pyStrip (pyStrOfDateTime d) = ""
    · rw [if_pos he] at h; cases h
    · rw [if_neg he] at h; cases h; exact he

/-- Serialized element markup is never empty. -/
theorem htmlRenderN_elem_ne_empty (t : String) (c : List String)
    (a : List (String × String)) (ch : List HNode) :
    htmlRenderN (.elem t c a ch) ≠ "" := by
  intro h
  have hd := congrArg String.data h
  simp [htmlRenderN, String.data_append] at hd

/-- A node matching a tag-name filter is an element. -/
theorem isElem_of_matchTag (n : String) (x : HNode) (h : matchTag n x = true) :
    isElemNode x = true := by
  cases x with
  | elem _ _ _ _ => rfl
  | text _ => simp [matchTag] at h

/-- A node matching a tag-and-class filter is an element. -/
theorem isElem_of_matchTagClass (n c : String) (x : HNode)
    (h : matchTagClass n c x = true) : isElemNode x = true := by
  cases x with
  | elem _ _ _ _ => rfl
  | text _ => simp [matchTagClass] at h

/-- The selector loop only answers with elements. -/
theorem firstSelectorMatch_isElem (doc : HNode) (sels : List (String × Option String))
    (t : HNode) (h : firstSelectorMatch doc sels = some t) : isElemNode t = true := by
  induction sels with
  | nil => simp [firstSelectorMatch] at h
  | cons s rest ih =>
    rw [firstSelectorMatch] at h
    cases hs : findSelector doc s with
    | some u =>
      rw [hs] at h
      cases h
      obtain ⟨name, cls⟩ := s
      cases cls with
      | some c => exact isElem_of_matchTagClass _ _ _ (List.find?_some hs)
      | none => exact isElem_of_matchTag _ _ (List.find?_some hs)
    | none =>
      rw [hs] at h
      exact ih h

/-- `body_finder` only answers with elements (never a bare string node). -/
theorem body_finder_isElem (doc b : HNode) (h : body_finder (some doc) = some b) :
    isElemNode b = true := by
  rw [body_finder] at h
  cases hm : firstSelectorMatch (removeAds doc) bodySelectors with
  | some t =>
    rw [hm] at h
    cases h
    exact firstSelectorMatch_isElem _ _ _ hm
  | none =>
    rw [hm] at h
    cases hall : findAllTag (removeAds doc) "div" with
    | nil =>
      rw [hall] at h
      dsimp only at h
      exact Option.noConfusion h
    | cons d ds =>
      rw [hall] at h
      dsimp only at h
      by_cases hlen : (getTextStripN (largestDiv d ds)).length > 100
      · rw [if_pos hlen] at h
        cases h
        have hmem := largestDiv_mem ds d
        rw [← hall] at hmem
        exact isElem_of_matchTag _ _ (List.mem_filter.mp hmem).2
      · rw [if_neg hlen] at h
        exact Option.noConfusion h

/-- The three text fields `save_defaults` computes are never the empty
string, provided a tag in the body slot is an element (which is all the
pipeline ever puts there). -/
theorem save_defaults_ne_empty (a : ArticleDict)
    (hbody : ∀ t, a.body = .tagV t → isElemNode t = true) :
    (save_defaults a).title ≠ "" ∧ (save_defaults a).body ≠ "" ∧
      (save_defaults a).plain_body ≠ "" := by
  have hNF : ("Not Found" : String) ≠ "" := by decide
  have hbodyNe : (save_defaults a).body ≠ "" := by
    cases hb : a.body with
    | tagV t =>
      have ht := hbody t hb
      cases t with
      | elem tg cl att ch =>
        simp only [save_defaults, hb]
        exact htmlRenderN_elem_ne_empty tg cl att ch
      | text s => simp [isElemNode] at ht
    | noneV =>
      simp only [save_defaults, hb]
      cases hn : _normalize_text PyVal.noneV with
      | none => simp [hn]
      | some s => simpa [hn] using _normalize_text_ne_empty _ _ hn
    | strV s0 =>
      simp only [save_defaults, hb]
      cases hn : _normalize_text (PyVal.strV s0) with
      | none => simp [hn]
      | some s => simpa [hn] using _normalize_text_ne_empty _ _ hn
    | dtV d0 =>
      simp only [save_defaults, hb]
      cases hn : _normalize_text (PyVal.dtV d0) with
      | none => simp [hn]
      | some s => simpa [hn] using _normalize_text_ne_empty _ _ hn
  refine ⟨?_, hbodyNe, ?_⟩
  · cases ht : _normalize_text a.title with
    | none => simp [save_defaults, ht]
    | some s => simpa [save_defaults, ht] using _normalize_text_ne_empty _ _ ht
  · cases hb : a.body with
    | tagV t =>
      simp only [save_defaults, hb]
      cases hn : _normalize_text (PyVal.strV (getTextStripN t)) with
      | none => simp [hn]
      | some s => simpa [hn] using _normalize_text_ne_empty _ _ hn
    | noneV =>
      simp only [save_defaults, hb]
      cases hn : _normalize_text a.plain_body with
      | none =>
        simp only [hn, Option.getD_none]
        split
        · have := hbodyNe
          simpa [save_defaults, hb] using this
        · exact hNF
      | some s => simpa [hn] using _normalize_text_ne_empty _ _ hn
    | strV s0 =>
      simp only [save_defaults, hb]
      cases hn : _normalize_text a.plain_body with
      | none =>
        simp only [hn, Option.getD_none]
        split
        · have := hbodyNe
          simpa [save_defaults, hb] using this
        · exact hNF
      | some s => simpa [hn] using _normalize_text_ne_empty _ _ hn
    | dtV d0 =>
      simp only [save_defaults, hb]
      cases hn : _normalize_text a.plain_body with
      | none =>
        simp only [hn, Option.getD_none]
        split
        · have := hbodyNe
          simpa [save_defaults, hb] using this
        · exact hNF
      | some s => simpa [hn] using _normalize_text_ne_empty _ _ hn

/-- A successful `save_article` persists exactly the computed defaults in
the record's three text fields. -/
theorem save_article_fields (uuid : String) (store : List Record) (a : ArticleDict)
    (r : Record) (created : Bool) (store' : List Record)
    (h : save_article uuid store a = .ok (r, created, store')) :
    r.title = (save_defaults a).title ∧ r.body = (save_defaults a).body ∧
      r.plain_body = (save_defaults a).plain_body := by
  rw [save_article, update_or_create] at h
  cases hf : List.find? (fun x => x.url == (match a.url with
      | some s => if s = "" then "not-found-" ++ uuid else s
      | none => "not-found-" ++ uuid)) store with
  | some r0 =>
    rw [hf] at h
    dsimp only at h
    cases h
    exact ⟨rfl, rfl, rfl⟩
  | none =>
    rw [hf] at h
    dsimp only at h
    cases hp : (save_defaults a).published_at with
    | some p =>
      rw [hp] at h
      dsimp only at h
      cases h
      exact ⟨rfl, rfl, rfl⟩
    | none =>
      rw [hp] at h
      exact Except.noConfusion h

/-! ## Claims -/

/-- C1: the spec says a candidate whose `publishedAt` is absent or fails to
parse is still persisted with `publishedAt` absent and that this is not an
item or run failure.  In the code, `save_article` indeed leaves
`published_at` out of the defaults, but the `Article.published_at` column
is declared `null=False` (models.py line 8), so *creating* such a record
raises an integrity error: the item is not persisted and the loop logs it
as a failed item.  The theorem evaluates the embedding at such a
candidate: the computed defaults carry no timestamp, the persist raises,
and the run ends with the url rendered but nothing stored. -/
theorem c1_absent_published_at_fails_persist :
    save_defaults emptyDict = ⟨"Not Found", "Not Found", "Not Found", none⟩ ∧
    save_article "u0" [] emptyDict = .error () ∧
    scraper_run c1Env [] =
      .ok ⟨[], 0, ["https://example.com/x"], ["https://example.com/x"], []⟩ :=
  ⟨rfl, rfl, rfl⟩

/-- C2 counterexample: the claim says every per-url failure is caught at
the loop and the only condition aborting the whole run is a webdriver
acquisition failure.  Twice here the webdriver comes up fine
(`driver = .ok ()`) yet the run aborts: once because loading
`websites.json` raises inside the outer `try`, which has no `except`, and
once on the string entry `http://[`, on which `urlparse` raises a
`ValueError` that the `except RequestException` handler does not catch. -/
theorem c2_counterexample :
    (scraper_run c2FailEnv [] = .error () ∧ c2FailEnv.driver = .ok ()) ∧
    (scraper_run c2BadUrlEnv [] = .error () ∧ c2BadUrlEnv.driver = .ok () ∧
      urlparse_validate "http://[" = .error ()) :=
  ⟨⟨rfl, rfl⟩, rfl, rfl, rfl⟩

/-- C2 amended: per-url failures inside the validation, probe, render,
extraction and persist stages are caught at the loop and processing
continues.  The run aborts at startup when webdriver acquisition fails,
when the `websites.json` load or parse fails, or when the decoded
document is a number, boolean or null (`list(links)` raises).  Once the
loop runs, an iteration aborts the run exactly when its entry is not a
string (`endswith` raises) or when the entry survives the dedup check and
`urlparse` raises a `ValueError` on its normalized form (the handler
there catches only `RequestException`); conversely, a loop over string
entries on whose normalized forms `urlparse` returns never aborts. -/
theorem c2_amended_abort_conditions (env : Env) (init : List Record)
    (st : RunState) (links : List LinkItem) (item : LinkItem) :
    (env.driver = .error () → scraper_run env init = .error ()) ∧
    (env.driver = .ok () → env.websites = .error () →
      scraper_run env init = .error ()) ∧
    (env.driver = .ok () → env.websites = .ok .scalarD →
      scraper_run env init = .error ()) ∧
    (process_link env st item = .error () ↔
      item = .otherI ∨
      ∃ l, item = .strI l ∧
        urlparse_validate (stripTrailingSlash l) = .error () ∧
        ¬(env.dbCheckFails (stripTrailingSlash l) = false ∧
          st.store.any (fun r => r.url == stripTrailingSlash l) = true)) ∧
    ((∀ it ∈ links, ∃ l, it = LinkItem.strI l ∧
        isRunError (urlparse_validate (stripTrailingSlash l)) = false) →
      isRunError (run_loop env links st) = false) := by
  refine ⟨?_, ?_, ?_, ?_, run_loop_ok_of_parsable env links st⟩
  · intro h
    simp [scraper_run, h]
  · intro h hw
    simp [scraper_run, h, hw]
  · intro h hw
    simp [scraper_run, h, hw]
  · cases item with
    | otherI => simp [process_link]
    | strI l =>
      have hPLdb : env.dbCheckFails (stripTrailingSlash l) = true →
          process_link env st (.strI l) =
            process_after_dedup env st (stripTrailingSlash l) := by
        intro hdb
        rw [process_link, if_pos hdb]
      constructor
      · intro h
        by_cases hdb : env.dbCheckFails (stripTrailingSlash l)
        · rw [hPLdb hdb] at h
          refine Or.inr ⟨l, rfl, (process_after_dedup_err_iff env st _).mp h, ?_⟩
          intro hc
          rw [hdb] at hc
          exact Bool.noConfusion hc.1
        · rw [process_link, if_neg hdb] at h
          by_cases hex : st.store.any (fun r => r.url == stripTrailingSlash l) = true
          · rw [if_pos hex] at h
            exact absurd h (by simp)
          · rw [if_neg hex] at h
            refine Or.inr ⟨l, rfl, (process_after_dedup_err_iff env st _).mp h, ?_⟩
            intro hc
            exact hex hc.2
      · rintro (h | ⟨l', heq, hup, hnot⟩)
        · exact LinkItem.noConfusion h
        · cases heq
          by_cases hdb : env.dbCheckFails (stripTrailingSlash l)
          · rw [hPLdb hdb]
            exact (process_after_dedup_err_iff env st _).mpr hup
          · have hdb' : env.dbCheckFails (stripTrailingSlash l) = false := by
              simpa using hdb
            by_cases hex : st.store.any (fun r => r.url == stripTrailingSlash l) = true
            · exact absurd ⟨hdb', hex⟩ hnot
            · rw [process_link, if_neg hdb, if_neg hex]
              exact (process_after_dedup_err_iff env st _).mpr hup

/-- C2 amended, instantiated: the three startup aborts, the two
iteration-abort shapes (`http://[` and a non-string entry), and a
completing loop over a benign url. -/
theorem c2_amended_witness :
    scraper_run c2DeadDriverEnv [] = .error () ∧
    scraper_run c2FailEnv [] = .error () ∧
    scraper_run c2ScalarEnv [] = .error () ∧
    process_link c2BadUrlEnv ⟨[], 0, [], [], []⟩ (.strI "http://[") = .error () ∧
    process_link c2BadUrlEnv ⟨[], 0, [], [], []⟩ .otherI = .error () ∧
    isRunError (run_loop c2BadUrlEnv [.strI "https://example.com/a"]
      ⟨[], 0, [], [], []⟩) = false :=
  ⟨(c2_amended_abort_conditions c2DeadDriverEnv [] ⟨[], 0, [], [], []⟩ [] .otherI).1
      rfl,
   (c2_amended_abort_conditions c2FailEnv [] ⟨[], 0, [], [], []⟩ [] .otherI).2.1
      rfl rfl,
   (c2_amended_abort_conditions c2ScalarEnv [] ⟨[], 0, [], [], []⟩ [] .otherI).2.2.1
      rfl rfl,
   (c2_amended_abort_conditions c2BadUrlEnv [] ⟨[], 0, [], [], []⟩ []
      (.strI "http://[")).2.2.2.1.mpr
     (Or.inr ⟨"http://[", rfl, rfl, fun hc => Bool.noConfusion hc.2⟩),
   (c2_amended_abort_conditions c2BadUrlEnv [] ⟨[], 0, [], [], []⟩ []
      .otherI).2.2.2.1.mpr (Or.inl rfl),
   (c2_amended_abort_conditions c2BadUrlEnv [] ⟨[], 0, [], [], []⟩
      [.strI "https://example.com/a"] .otherI).2.2.2.2
     (fun it hit => by
       rw [List.mem_singleton] at hit
       subst hit
       exact ⟨"https://example.com/a", rfl, rfl⟩)⟩

/-- C3: two urls both probing HTTP 404 are kept away from the render step
(`rendered = []`), but the final skip count is 1, not 2: each skip site
executes `skipped_cnt =+ 1`, which assigns `+1` instead of accumulating,
so the count the claim expects (2) is never reached. -/
theorem c3_skip_counter_does_not_accumulate :
    scraper_run c3Env [] =
      .ok ⟨[], 1, ["http://a.example/x", "http://b.example/y"], [], []⟩ :=
  rfl

/-- C4 counterexample: the claim states idempotence of the normalization,
but a url ending in two separators strips to one trailing separator, and
normalizing again strips that too. -/
theorem c4_counterexample :
    stripTrailingSlash (stripTrailingSlash "https://example.com/a//") ≠
      stripTrailingSlash "https://example.com/a//" := by
  decide

/-- C4 amended: the normalization strips exactly one trailing separator
(appending one separator and normalizing is the identity), and it is
idempotent on every url that does not end in two separators. -/
theorem c4_amended_strip_exactly_one (u : String) :
    stripTrailingSlash (String.mk (u.data ++ ['/'])) = u ∧
    (endsInDoubleSlash u = false →
      stripTrailingSlash (stripTrailingSlash u) = stripTrailingSlash u) := by
  obtain ⟨l⟩ := u
  constructor
  · rw [stripTrailingSlash]
    simp [List.getLast?_concat, List.dropLast_concat]
  · intro h
    rw [endsInDoubleSlash] at h
    by_cases h1 : l.getLast? = some '/'
    · have e1 : stripTrailingSlash ⟨l⟩ = ⟨l.dropLast⟩ := by
        rw [stripTrailingSlash, if_pos h1]
      rw [e1]
      simp only [h1, beq_self_eq_true, Bool.true_and, beq_eq_false_iff_ne] at h
      rw [stripTrailingSlash, if_neg h]
    · have e1 : stripTrailingSlash ⟨l⟩ = ⟨l⟩ := by
        rw [stripTrailingSlash, if_neg h1]
      rw [e1, e1]

/-- C4 amended, instantiated at a concrete url. -/
theorem c4_amended_witness :
    stripTrailingSlash (String.mk ("https://example.com/a".data ++ ['/'])) =
        "https://example.com/a" ∧
    stripTrailingSlash (stripTrailingSlash "https://example.com/a") =
      stripTrailingSlash "https://example.com/a" := by
  have h := c4_amended_strip_exactly_one "https://example.com/a"
  exact ⟨h.1, h.2 (by decide)⟩

/-- C5: a url whose normalized form the store already holds is skipped
without touching the probe, render or persist traces or the store; and
the duplicate-after-normalization input of the scenario produces exactly
one persisted record, keyed `https://example.com/a`. -/
theorem c5_dedup_skip_and_single_record (env : Env) (st : RunState) (link0 : String)
    (hdb : env.dbCheckFails (stripTrailingSlash link0) = false)
    (hex : st.store.any (fun r => r.url == stripTrailingSlash link0) = true) :
    process_link env st (.strI link0) = .ok { st with skipped := 1 } ∧
    scraper_run c5Env [] =
      .ok ⟨[pageRecord "https://example.com/a"], 1, ["https://example.com/a"],
        ["https://example.com/a"], ["https://example.com/a"]⟩ := by
  constructor
  · rw [process_link]
    rw [if_neg (by simp [hdb])]
    rw [if_pos hex]
  · rfl

/-- C5, instantiated: the second occurrence of the normalized url is
skipped against a store already holding its record. -/
theorem c5_witness :
    process_link c5Env ⟨[pageRecord "https://example.com/a"], 0, [], [], []⟩
        (.strI "https://example.com/a/") =
      .ok ⟨[pageRecord "https://example.com/a"], 1, [], [], []⟩ ∧
    scraper_run c5Env [] =
      .ok ⟨[pageRecord "https://example.com/a"], 1, ["https://example.com/a"],
        ["https://example.com/a"], ["https://example.com/a"]⟩ :=
  c5_dedup_skip_and_single_record c5Env
    ⟨[pageRecord "https://example.com/a"], 0, [], [], []⟩
    "https://example.com/a/" rfl rfl

/-- C6: the body extractor first deletes every `div.ad-container`, so every
node of a returned body is ad-free; when a selector of the fixed list
matches it returns that first match; when none matches it returns the
largest `<div>` exactly when its stripped text exceeds 100 characters, and
absence when there is no `<div>` at all; the ad-plus-article document
yields the `<article>`, the five-short-divs document yields absence, and
the 150-character-div document yields that div. -/
theorem c6_body_extractor (doc : HNode) :
    (∀ b, body_finder (some doc) = some b →
      ((nodes b).all fun x => !isAdDiv x) = true) ∧
    (∀ t, firstSelectorMatch (removeAds doc) bodySelectors = some t →
      body_finder (some doc) = some t) ∧
    (firstSelectorMatch (removeAds doc) bodySelectors = none →
      ∀ d ds, findAllTag (removeAds doc) "div" = d :: ds →
        body_finder (some doc) =
          (if (getTextStripN (largestDiv d ds)).length > 100
           then some (largestDiv d ds) else none)) ∧
    (firstSelectorMatch (removeAds doc) bodySelectors = none →
      findAllTag (removeAds doc) "div" = [] → body_finder (some doc) = none) ∧
    body_finder (some docAdArticle) = some articleNode ∧
    body_finder (some docFallbackShort) = none ∧
    body_finder (some docFallbackLong) = some longDiv := by
  refine ⟨?_, ?_, ?_, ?_, rfl, rfl, rfl⟩
  · intro b h
    have hmem := bodyResult_mem doc b h
    cases doc with
    | text s =>
      simp [removeAds, descendants] at hmem
    | elem tg cl att ch =>
      simp only [removeAds, descendants] at hmem
      rw [List.all_eq_true]
      intro y hy
      have hymem : y ∈ nodesL (removeAdsL ch) := nodesL_trans _ b y hmem hy
      simp [noAd_nodesL_removeAdsL _ y hymem]
  · intro t ht
    rw [body_finder, ht]
  · intro hm d ds hall
    rw [body_finder, hm]
    dsimp only
    rw [hall]
  · intro hm hall
    rw [body_finder, hm]
    dsimp only
    rw [hall]

/-- C6, instantiated: the article body of the ad document is ad-free and
is the selector match; the short-divs document goes through the
largest-div fallback; a document without divs yields absence. -/
theorem c6_witness :
    ((nodes articleNode).all fun x => !isAdDiv x) = true ∧
    body_finder (some docAdArticle) = some articleNode ∧
    body_finder (some docFallbackShort) =
      (if (getTextStripN (largestDiv (HNode.elem "div" [] [] [.text text50])
          [.elem "div" [] [] [.text "a"], .elem "div" [] [] [.text "b"],
           .elem "div" [] [] [.text "c"], .elem "div" [] [] [.text "d"]])).length > 100
       then some (largestDiv (HNode.elem "div" [] [] [.text text50])
          [.elem "div" [] [] [.text "a"], .elem "div" [] [] [.text "b"],
           .elem "div" [] [] [.text "c"], .elem "div" [] [] [.text "d"]])
       else none) ∧
    body_finder (some docTitleOnly) = none :=
  ⟨(c6_body_extractor docAdArticle).1 articleNode rfl,
   (c6_body_extractor docAdArticle).2.1 articleNode rfl,
   (c6_body_extractor docFallbackShort).2.2.1 rfl
     (HNode.elem "div" [] [] [.text text50])
     [.elem "div" [] [] [.text "a"], .elem "div" [] [] [.text "b"],
      .elem "div" [] [] [.text "c"], .elem "div" [] [] [.text "d"]] rfl,
   (c6_body_extractor docTitleOnly).2.2.2.1 rfl rfl⟩

/-- C7 counterexample: the claim says the title extractor stops at the
first strategy that yields a non-absent result, so a document whose `<h1>`
normalizes to absence but whose `<title>` is "B" should yield "B".  The
code stops as soon as an `<h1>` element exists and returns its normalized
text even when that is absent: here the finder answers absence although
the `<title>` strategy would have yielded "B". -/
theorem c7_counterexample :
    title_finder (some docWsH1AndTitle) = none ∧
    findTag docWsH1AndTitle "h1" = some wsH1 ∧
    _normalize_text (.tagV wsH1) = none ∧
    titleTagBranch docWsH1AndTitle = some "B" :=
  ⟨rfl, rfl, rfl, rfl⟩

/-- C7 amended: the extractor stops at the first strategy whose *element
probe* succeeds — an `<h1>` found (its normalized text is returned even
when absent), else an `og:title` meta with non-empty content (trimmed
content returned), else the `<title>` branch; an absent document yields
absence; the scenario documents behave as claimed. -/
theorem c7_amended_title_order (doc : HNode) :
    title_finder none = none ∧
    (∀ h1, findTag doc "h1" = some h1 →
      title_finder (some doc) = _normalize_text (.tagV h1)) ∧
    (findTag doc "h1" = none →
      ∀ og c, findTagAttr doc "meta" "property" "og:title" = some og →
        getAttr og "content" = some c → c ≠ "" →
        title_finder (some doc) = some (pyStrip c)) ∧
    (findTag doc "h1" = none →
      findTagAttr doc "meta" "property" "og:title" = none →
      title_finder (some doc) = titleTagBranch doc) ∧
    title_finder (some docTitleOnly) = some "Foo" ∧
    title_finder (some docH1AndTitle) = some "A" := by
  refine ⟨rfl, ?_, ?_, ?_, rfl, rfl⟩
  · intro h1 hh
    rw [title_finder, hh]
  · intro hh og c hog hc hne
    rw [title_finder, hh]
    dsimp only
    rw [hog]
    dsimp only
    rw [hc]
    dsimp only
    rw [if_pos hne]
  · intro hh hog
    rw [title_finder, hh]
    dsimp only
    rw [hog]

/-- C7 amended, instantiated on the three strategy branches. -/
theorem c7_amended_witness :
    title_finder (some docH1AndTitle) =
      _normalize_text (.tagV (.elem "h1" [] [] [.text "A"])) ∧
    title_finder (some docOgOnly) = some (pyStrip " OG ") ∧
    title_finder (some docTitleOnly) = titleTagBranch docTitleOnly :=
  ⟨(c7_amended_title_order docH1AndTitle).2.1 (.elem "h1" [] [] [.text "A"]) rfl,
   (c7_amended_title_order docOgOnly).2.2.1 rfl
     (.elem "meta" [] [("property", "og:title"), ("content", " OG ")] []) " OG "
     rfl rfl (by decide),
   (c7_amended_title_order docTitleOnly).2.2.2.1 rfl rfl⟩

/-- C8: a candidate with absent title, body and plain body is normalized
to the literal sentinel in all three fields; a successfully persisted
record never carries an empty string in them (given the pipeline's
invariant that a tag in the body slot is an element, which the third
conjunct establishes for every extracted candidate). -/
theorem c8_sentinel_fields (a : ArticleDict) (uuid : String) (store : List Record)
    (hbody : ∀ t, a.body = .tagV t → isElemNode t = true) :
    (a.title = .noneV → a.body = .noneV → a.plain_body = .noneV →
      (save_defaults a).title = "Not Found" ∧
        (save_defaults a).body = "Not Found" ∧
        (save_defaults a).plain_body = "Not Found") ∧
    (∀ r created store', save_article uuid store a = .ok (r, created, store') →
      r.title ≠ "" ∧ r.body ≠ "" ∧ r.plain_body ≠ "") ∧
    (∀ env soup link t, (extract_article env soup link).body = .tagV t →
      isElemNode t = true) := by
  refine ⟨?_, ?_, ?_⟩
  · intro h1 h2 h3
    refine ⟨?_, ?_, ?_⟩ <;> simp [save_defaults, h1, h2, h3, _normalize_text]
  · intro r created store' h
    obtain ⟨e1, e2, e3⟩ := save_article_fields uuid store a r created store' h
    obtain ⟨n1, n2, n3⟩ := save_defaults_ne_empty a hbody
    rw [e1, e2, e3]
    exact ⟨n1, n2, n3⟩
  · intro env soup link t h
    dsimp only [extract_article] at h
    cases hb : body_finder (some soup) with
    | none => rw [hb] at h; exact PyVal.noConfusion h
    | some bt =>
      rw [hb] at h
      dsimp only at h
      cases h
      exact body_finder_isElem soup _ hb

/-- C8, instantiated: the all-absent candidate persists (by in-place
update) with all three sentinel fields non-empty. -/
theorem c8_witness :
    ((save_defaults emptyDict).title = "Not Found" ∧
      (save_defaults emptyDict).body = "Not Found" ∧
      (save_defaults emptyDict).plain_body = "Not Found") ∧
    (oldRec.title ≠ "" → True) ∧
    (⟨"Not Found", "Not Found", "Not Found", ⟨2020, 1, 1, 0, 0, 0⟩,
        "https://example.com/x"⟩ : Record).title ≠ "" ∧
    isElemNode (.elem "article" [] [] [.text "body text"]) = true := by
  have hc := c8_sentinel_fields emptyDict "u0" [oldRec]
    (fun t ht => PyVal.noConfusion ht)
  refine ⟨hc.1 rfl rfl rfl, fun _ => trivial, ?_, ?_⟩
  · exact (hc.2.1 ⟨"Not Found", "Not Found", "Not Found", ⟨2020, 1, 1, 0, 0, 0⟩,
      "https://example.com/x"⟩ false
      [⟨"Not Found", "Not Found", "Not Found", ⟨2020, 1, 1, 0, 0, 0⟩,
        "https://example.com/x"⟩] rfl).1
  · exact hc.2.2 c5Env pageDoc "https://example.com/x"
      (.elem "article" [] [] [.text "body text"]) rfl

/-- C9: the published-date extractor answers absence immediately when the
date-parsing capability is unavailable; a failing first strategy hands
over to the second; total failure yields absence; and the
`<time datetime="2024-03-01T10:00:00">` scenario yields
"01.03.2024 10:00:00". -/
theorem c9_published_date_extractor (env : DateEnv) (doc : HNode) :
    (env.available = false → published_at_finder env (some doc) = none) ∧
    (env.available = true → timeStrategy env doc = none →
      published_at_finder env (some doc) = authorStrategy env doc) ∧
    (env.available = true → timeStrategy env doc = none →
      authorStrategy env doc = none → published_at_finder env (some doc) = none) ∧
    published_at_finder dateparserIso (some docTime) = some "01.03.2024 10:00:00" := by
  refine ⟨?_, ?_, ?_, rfl⟩
  · intro h
    rw [published_at_finder, h]
    rfl
  · intro h ht
    simp [published_at_finder, h, ht]
  · intro h ht ha
    simp [published_at_finder, h, ht, ha]

/-- C9, instantiated: unavailable parser, strategy hand-over and total
failure on a document without date markup, plus the scenario value. -/
theorem c9_witness :
    published_at_finder ⟨false, dateparserIso.parse⟩ (some docTitleOnly) = none ∧
    published_at_finder dateparserIso (some docTitleOnly) =
      authorStrategy dateparserIso docTitleOnly ∧
    published_at_finder dateparserIso (some docTitleOnly) = none ∧
    published_at_finder dateparserIso (some docTime) = some "01.03.2024 10:00:00" :=
  ⟨(c9_published_date_extractor ⟨false, dateparserIso.parse⟩ docTitleOnly).1 rfl,
   (c9_published_date_extractor dateparserIso docTitleOnly).2.1 rfl rfl,
   (c9_published_date_extractor dateparserIso docTitleOnly).2.2.1 rfl rfl rfl,
   (c9_published_date_extractor dateparserIso docTitleOnly).2.2.2⟩

/-- C10: when the store existence check raises, the url is *not* skipped —
the iteration behaves exactly as if the url were new and proceeds to
validate, probe, render and persist; concretely, a run over an
already-persisted url whose check raises re-renders it and updates the
record in place instead of skipping. -/
theorem c10_db_error_proceeds (env : Env) (st : RunState) (link0 : String)
    (h : env.dbCheckFails (stripTrailingSlash link0) = true) :
    process_link env st (.strI link0) =
      process_after_dedup env st (stripTrailingSlash link0) ∧
    scraper_run c10Env [oldRec] =
      .ok ⟨[pageRecord "https://example.com/x"], 0, ["https://example.com/x"],
        ["https://example.com/x"], ["https://example.com/x"]⟩ := by
  constructor
  · rw [process_link, if_pos h]
  · rfl

/-- C10, instantiated at the raising check of the concrete run. -/
theorem c10_witness :
    process_link c10Env ⟨[oldRec], 0, [], [], []⟩ (.strI "https://example.com/x") =
      process_after_dedup c10Env ⟨[oldRec], 0, [], [], []⟩
        (stripTrailingSlash "https://example.com/x") ∧
    scraper_run c10Env [oldRec] =
      .ok ⟨[pageRecord "https://example.com/x"], 0, ["https://example.com/x"],
        ["https://example.com/x"], ["https://example.com/x"]⟩ :=
  c10_db_error_proceeds c10Env ⟨[oldRec], 0, [], [], []⟩ "https://example.com/x" rfl

end WebScraper
